import Mathlib

/-!
Shallow embedding of the change-aware ingestion pipeline of the
`covid19analysismx` repository (module `src/covid19analysismx/data.py` and
the `setup-db` CLI command), together with theorems settling the frozen
claims about it.

Python dictionaries are modelled as association lists that keep Python's
insertion-order semantics (updating an existing key keeps its position, a
new key is appended).  Python exceptions are modelled with `Except PyError`.
-/

/-- Python exceptions that the embedded code can raise. -/
inductive PyError where
  | typeError
  | valueError
  | keyError
  | fileNotFoundError
  | catalogError
deriving Repr, DecidableEq

deriving instance DecidableEq for Except

/-- `d[k]` lookup for a Python dict modelled as an association list. -/
def dictLookup (l : List (String × α)) (k : String) : Option α :=
  match l with
  | [] => none
  | p :: rest => if p.1 = k then some p.2 else dictLookup rest k

/-- `d[k] = v` for a Python dict: updating an existing key keeps its
position, a fresh key is appended at the end. -/
def dictInsert (l : List (String × α)) (k : String) (v : α) : List (String × α) :=
  match l with
  | [] => [(k, v)]
  | p :: rest => if p.1 = k then (k, v) :: rest else p :: dictInsert rest k v

/-- `del d[k]` / removal of a key from a Python dict. -/
def dictErase (l : List (String × α)) (k : String) : List (String × α) :=
  match l with
  | [] => []
  | p :: rest => if p.1 = k then dictErase rest k else p :: dictErase rest k

/-- Python `str.lower()` (header names are ASCII). -/
def pyLower (s : String) : String :=
  String.mk (s.data.map Char.toLower)

/-- Python `str.endswith(suffix)`. -/
def pyEndsWith (s suffix : String) : Bool :=
  suffix.data.isSuffixOf s.data

/-- One decimal digit of a Python integer literal. -/
def digitVal (c : Char) : Option Nat :=
  if c.isDigit then some (c.toNat - '0'.toNat) else none

/-- Parse a nonempty run of decimal digits. -/
def parseNatDigits (l : List Char) : Option Nat :=
  match l with
  | [] => none
  | _ :: _ =>
    l.foldl
      (fun acc c =>
        match acc, digitVal c with
        | some n, some d => some (n * 10 + d)
        | _, _ => none)
      (some 0)

/-- Python `int(str)`: an optional sign followed by decimal digits (the
successful cases of `int()` on the header values this program meets). -/
def pyInt (s : String) : Option Int :=
  match s.data with
  | '-' :: rest => (parseNatDigits rest).map (fun n => -(n : Int))
  | '+' :: rest => (parseNatDigits rest).map (fun n => (n : Int))
  | l => (parseNatDigits l).map (fun n => (n : Int))

/-- `normalize_http_headers` from `data.py`: rebuild the header dict with
every header name lower-cased (`norm_headers[name.lower()] = value` over the
items, starting from the empty dict). -/
def normalize_http_headers (headers : List (String × String)) : List (String × String) :=
  headers.foldl (fun acc p => dictInsert acc (pyLower p.1) p.2) []

/-- `DataInfo` from `data.py`.  The underlying `info` dict of the sidecar
JSON file is modelled as a typed record of its three possible keys
(`source_file_name`, `source_data_date`, `http_headers`); `info.get(key,
None)` becomes the corresponding `Option` field. -/
structure DataInfo where
  source_file_name : Option String
  source_data_date : Option String
  http_headers : Option (List (String × String))
deriving Repr, DecidableEq

/-- `DataInfo.save`: serializing the info dict to the sidecar JSON file.
JSON serialization of this record is faithful, so the file content is
modelled as the record itself. -/
def DataInfo.save (d : DataInfo) : DataInfo := d

/-- `DataInfo.from_file`: load the sidecar JSON content and, when the
`http_headers` key is present, normalize the header names to lowercase. -/
def DataInfo.from_file (file : DataInfo) : DataInfo :=
  { file with http_headers := file.http_headers.map normalize_http_headers }

/-- `DataInfo.source_data_size`: `None` when `http_headers` is absent,
otherwise `int(self.http_headers.get("content-length"))` — which raises
`TypeError` when the key is absent (`int(None)`) and `ValueError` when the
value does not parse as an integer. -/
def DataInfo.source_data_size (d : DataInfo) : Except PyError (Option Int) :=
  match d.http_headers with
  | none => Except.ok none
  | some hs =>
    match dictLookup hs "content-length" with
    | none => Except.error PyError.typeError
    | some v =>
      match pyInt v with
      | none => Except.error PyError.valueError
      | some n => Except.ok (some n)

/-- `DataInfo.different_than`: `True` when either size is `None`, otherwise
`True` exactly when the two sizes differ.  Size resolution happens in the
order of the Python source (`self` first, then `other`), so an exception in
either propagates. -/
def DataInfo.different_than (d other : DataInfo) : Except PyError Bool := do
  let s1 ← d.source_data_size
  match s1 with
  | none => return true
  | some n1 =>
    let s2 ← other.source_data_size
    match s2 with
    | none => return true
    | some n2 => return decide (n1 ≠ n2)




/-!
Filesystem and ZIP-archive model, for `DataManager.unzip_covid_data_csv`
and the `setup-db` command.  The filesystem is a Python-dict-like map from
path to byte size (`path.exists()` is a successful lookup, `stat().st_size`
is the stored size).  A well-formed ZIP member extracts to a file whose
byte size is the member's declared (uncompressed) `file_size`.
-/

/-- Modelled filesystem: map from path to file byte size. -/
abbrev FS := List (String × Nat)

/-- `path.exists()` together with `stat().st_size`. -/
def fsSize (fs : FS) (path : String) : Option Nat :=
  dictLookup fs path

/-- A ZIP member: `zipfile.ZipInfo` with its `filename` and declared
uncompressed `file_size`. -/
structure ZipMember where
  filename : String
  file_size : Nat
deriving Repr, DecidableEq

/-- A ZIP archive: its central directory, in order. -/
structure ZipFile where
  members : List ZipMember
deriving Repr, DecidableEq

/-- `ZipFile.namelist()`: member names, in archive order. -/
def ZipFile.namelist (z : ZipFile) : List String :=
  z.members.map ZipMember.filename

/-- `ZipFile.getinfo(name)`: Python builds `NameToInfo` by inserting every
member in order, so on duplicate names the last member wins. -/
def ZipFile.getinfo (z : ZipFile) (n : String) : Option ZipMember :=
  z.members.reverse.find? (fun m => m.filename = n)

/-- One loop body of `unzip_covid_data_csv` for a matching member: look up
the member info (`getinfo` raises `KeyError` when absent), then extract
unless a file of the declared size already sits at the destination.
Returns the new filesystem and the number of file writes performed. -/
def extractStep (dest_dir : String) (z : ZipFile) (file_name : String) (fs : FS) :
    Except PyError (FS × Nat) :=
  match z.getinfo file_name with
  | none => Except.error PyError.keyError
  | some zi =>
    let data_path := dest_dir ++ "/" ++ file_name
    match fsSize fs data_path with
    | none => Except.ok (dictInsert fs data_path zi.file_size, 1)
    | some sz =>
      if zi.file_size ≠ sz then Except.ok (dictInsert fs data_path zi.file_size, 1)
      else Except.ok (fs, 0)

/-- The `for file_name in zip_file.namelist()` loop of
`unzip_covid_data_csv`: on the first name ending in `COVID19MEXICO.csv`,
perform the conditional extraction and `break`; otherwise fall through, so
after the loop `file_name` holds the last iterated name, or `None` when
the archive is empty. -/
def unzipLoop (dest_dir : String) (z : ZipFile) :
    List String → FS → Except PyError (FS × Nat × Option String)
  | [], fs => Except.ok (fs, 0, none)
  | n :: rest, fs =>
    if pyEndsWith n "COVID19MEXICO.csv" then do
      let (fs2, w) ← extractStep dest_dir z n fs
      return (fs2, w, some n)
    else
      match rest with
      | [] => Except.ok (fs, 0, some n)
      | _ :: _ => unzipLoop dest_dir z rest fs

/-- `DataManager.unzip_covid_data_csv`: run the loop, raise `KeyError` only
when `file_name` is still `None` (empty archive), and return
`dest_dir / file_name`.  The result carries the updated filesystem and the
number of file writes besides the returned path. -/
def unzip_covid_data_csv (dest_dir : String) (z : ZipFile) (fs : FS) :
    Except PyError (FS × Nat × String) := do
  let (fs2, w, last) ← unzipLoop dest_dir z z.namelist fs
  match last with
  | none => Except.error PyError.keyError
  | some n => return (fs2, w, dest_dir ++ "/" ++ n)




/-!
`COVIDData` model: the primary CSV is a list of raw rows, a raw row a list
of `(column name, cell text)` pairs.  `pandas.read_csv` is modelled with an
explicit date parser `parse : String → Option PdTimestamp` standing for the
pandas datetime parser (an external collaborator); a cell of a column
listed in `parse_dates` becomes a parsed timestamp (or stays text when the
parser fails), and the `na_values` option turns the literal `9999-99-99` in
column `FECHA_DEF` into a missing value before parsing. -/

/-- A calendar date, the value of pandas `.dt.date`. -/
structure CalDate where
  year : Nat
  month : Nat
  day : Nat
deriving Repr, DecidableEq

/-- A parsed pandas timestamp: a calendar date plus a time of day. -/
structure PdTimestamp where
  date : CalDate
  timeOfDay : Nat
deriving Repr, DecidableEq

/-- A dataframe cell. -/
inductive Cell where
  | text (s : String)
  | dt (t : PdTimestamp)
  | date (d : CalDate)
  | na
deriving Repr, DecidableEq

/-- A raw CSV row: `(column name, cell text)` pairs. -/
abbrev RawRow := List (String × String)

/-- A parsed dataframe row. -/
abbrev ParsedRow := List (String × Cell)

/-- The `parse_dates` column list of `COVIDData.chunks`. -/
def dateColumns : List String :=
  ["FECHA_ACTUALIZACION", "FECHA_INGRESO", "FECHA_SINTOMAS", "FECHA_DEF"]

/-- One cell of `pandas.read_csv` under the options of `COVIDData.chunks`:
`na_values={FECHA_DEF: "9999-99-99"}` applies before date parsing, and the
four `parse_dates` columns go through the datetime parser. -/
def parseCell (parse : String → Option PdTimestamp) (col s : String) : Cell :=
  if col ∈ dateColumns then
    if col = "FECHA_DEF" ∧ s = "9999-99-99" then Cell.na
    else
      match parse s with
      | some t => Cell.dt t
      | none => Cell.text s
  else Cell.text s

/-- Parse every cell of a raw row. -/
def parseRow (parse : String → Option PdTimestamp) (row : RawRow) : ParsedRow :=
  row.map (fun p => (p.1, parseCell parse p.1 p.2))

/-- Split a dataframe into consecutive chunks of `s` rows (the
`chunksize=s` iterator of `pandas.read_csv`; `s` is always positive where
this is used). -/
def chunkList (s : Nat) : List α → List (List α)
  | [] => []
  | x :: xs =>
    if s = 0 then []
    else (x :: xs).take s :: chunkList s ((x :: xs).drop s)
termination_by l => l.length
decreasing_by
  simp only [List.length_drop, List.length_cons]
  omega

/-- pandas `.dt.date` on one cell: keep only the calendar date of a parsed
timestamp; a missing value stays missing. -/
def dtDate : Cell → Cell
  | Cell.dt t => Cell.date t.date
  | Cell.na => Cell.na
  | c => c

/-- `dataframe[col] = dataframe[col].dt.date` restricted to one cell. -/
def fixCell (col : String) (p : String × Cell) : String × Cell :=
  if p.1 = col then (p.1, dtDate p.2) else p

/-- `dataframe[col] = dataframe[col].dt.date` on a whole dataframe. -/
def fixColumn (col : String) (df : List ParsedRow) : List ParsedRow :=
  df.map (fun row => row.map (fixCell col))

/-- `COVIDData._fix`: apply `.dt.date` to the four date columns, in source
order (`FECHA_ACTUALIZACION`, `FECHA_INGRESO`, `FECHA_SINTOMAS`,
`FECHA_DEF`). -/
def COVIDData.fix (df : List ParsedRow) : List ParsedRow :=
  fixColumn "FECHA_DEF"
    (fixColumn "FECHA_SINTOMAS"
      (fixColumn "FECHA_INGRESO"
        (fixColumn "FECHA_ACTUALIZACION" df)))

/-- `COVIDData.default_chunk_size = 2 ** 15`. -/
def COVIDData.default_chunk_size : Nat := 2 ^ 15

/-- `size = size or self.default_chunk_size`: `None` (and the falsy `0`)
fall back to the default. -/
def effChunkSize (size : Option Nat) : Nat :=
  match size with
  | none => COVIDData.default_chunk_size
  | some s => if s = 0 then COVIDData.default_chunk_size else s

/-- `pandas.read_csv(path, iterator=True, chunksize=size, parse_dates=…,
na_values=…)`: raises `FileNotFoundError` when the file is absent,
otherwise produces the chunked, cell-parsed dataframes.  The file content
is `Option (List RawRow)` (`none` = no file at `self.path`). -/
def read_csv (parse : String → Option PdTimestamp) (file : Option (List RawRow))
    (size : Nat) : Except PyError (List (List ParsedRow)) :=
  match file with
  | none => Except.error PyError.fileNotFoundError
  | some raws => Except.ok (chunkList size (raws.map (parseRow parse)))

/-- `COVIDData.chunks`: resolve the chunk size, and only when `self.path`
exists read the CSV and yield each chunk through `self._fix`; with no file
the generator yields nothing. -/
def COVIDData.chunks (parse : String → Option PdTimestamp)
    (file : Option (List RawRow)) (size : Option Nat) :
    Except PyError (List (List ParsedRow)) :=
  let sz := effChunkSize size
  if file.isSome then do
    let dfs ← read_csv parse file sz
    return dfs.map COVIDData.fix
  else Except.ok []

/-!
DuckDB connection model for `DBDataManager.save_catalog`, and the
database-file handling step of the `setup-db` CLI command.  A connection
holds the catalog tables and the registered (view name → in-memory
dataframe) objects; a `SELECT` from a view name that is neither registered
nor a table raises a catalog error at `execute` time.
-/

/-- A catalog CSV row. -/
abbrev CatRow := List String

/-- A DuckDB connection: tables and registered dataframe views. -/
structure Connection where
  tables : List (String × List CatRow)
  views : List (String × List CatRow)
deriving Repr, DecidableEq

/-- `connection.register(name, df)`. -/
def Connection.register (c : Connection) (n : String) (rows : List CatRow) : Connection :=
  { c with views := dictInsert c.views n rows }

/-- `connection.unregister(name)`: the registered object is removed at
once; later queries can no longer resolve the name. -/
def Connection.unregister (c : Connection) (n : String) : Connection :=
  { c with views := dictErase c.views n }

/-- `DROP TABLE IF EXISTS name`. -/
def execDropTableIfExists (c : Connection) (n : String) : Connection :=
  { c with tables := dictErase c.tables n }

/-- `CREATE TABLE name AS SELECT * FROM view`: fails when the view cannot
be resolved or a table of that name already exists; otherwise the new
table holds exactly the view's rows. -/
def execCreateTableAsView (c : Connection) (n view : String) :
    Except PyError Connection :=
  match dictLookup c.views view with
  | none => Except.error PyError.catalogError
  | some rows =>
    match dictLookup c.tables n with
    | some _ => Except.error PyError.catalogError
    | none => Except.ok { c with tables := c.tables ++ [(n, rows)] }

/-- `DBDataManager.save_catalog(name, path)`, with `cat_data` the rows
`pandas.read_csv(path)` produced: register the dataframe as
`cat_data_view`, then — in the source's order — unregister it and only
afterwards execute the `DROP TABLE IF EXISTS name; CREATE TABLE name AS
SELECT * FROM cat_data_view;` query. -/
def save_catalog (c : Connection) (name : String) (cat_data : List CatRow) :
    Except PyError Connection :=
  let c1 := Connection.register c "cat_data_view" cat_data
  let c2 := Connection.unregister c1 "cat_data_view"
  execCreateTableAsView (execDropTableIfExists c2 name) name "cat_data_view"

/-- The order the source intends (unregister after execute), kept for
comparison with `save_catalog`: this version implements a full replace of
the named table with the CSV rows. -/
def save_catalog_intended (c : Connection) (name : String) (cat_data : List CatRow) :
    Except PyError Connection := do
  let c1 := Connection.register c "cat_data_view" cat_data
  let c2 ← execCreateTableAsView (execDropTableIfExists c1 name) name "cat_data_view"
  return Connection.unregister c2 "cat_data_view"

/-- The database-file handling step of `setup_database` (`setup-db`
command, identical in both package revisions): `if DATABASE.exists():
DATABASE.unlink()`. -/
def setup_database_prepare (database : String) (fs : FS) : FS :=
  if (fsSize fs database).isSome then dictErase fs database else fs




/-!
Helper lemmas about the dict model.
-/

theorem dictLookup_dictErase (l : List (String × α)) (k q : String) :
    dictLookup (dictErase l k) q = if q = k then none else dictLookup l q := by
  induction l with
  | nil => simp [dictErase, dictLookup]
  | cons p rest ih =>
    by_cases h1 : p.1 = k
    · subst h1
      simp only [dictErase, if_pos rfl]
      by_cases h2 : q = p.1
      · subst h2
        simp [ih]
      · simp [dictLookup, ih, h2, Ne.symm h2]
    · simp only [dictErase, if_neg h1]
      by_cases h2 : p.1 = q
      · have hqk : ¬q = k := fun h => h1 (h2.trans h)
        simp [dictLookup, h2, hqk]
      · simp [dictLookup, h2, ih]

theorem dictLookup_dictInsert (l : List (String × α)) (k q : String) (v : α) :
    dictLookup (dictInsert l k v) q = if q = k then some v else dictLookup l q := by
  induction l with
  | nil =>
    by_cases h : q = k
    · simp [dictInsert, dictLookup, h]
    · simp [dictInsert, dictLookup, h, Ne.symm h]
  | cons p rest ih =>
    by_cases h1 : p.1 = k
    · subst h1
      simp only [dictInsert, if_pos rfl]
      by_cases h2 : p.1 = q
      · simp [dictLookup, h2]
      · simp [dictLookup, h2, Ne.symm h2]
    · simp only [dictInsert, if_neg h1]
      by_cases h2 : p.1 = q
      · have hqk : ¬q = k := fun h => h1 (h2.trans h)
        simp [dictLookup, h2, hqk]
      · simp [dictLookup, h2, ih]

theorem dictInsert_append_of_not_mem (l : List (String × α)) (k : String) (v : α)
    (h : ∀ p ∈ l, p.1 ≠ k) : dictInsert l k v = l ++ [(k, v)] := by
  induction l with
  | nil => rfl
  | cons p rest ih =>
    rw [dictInsert, if_neg (h p (List.mem_cons_self p rest)), List.cons_append,
      ih (fun q hq => h q (List.mem_cons_of_mem p hq))]

/-!
Claim theorems.
-/

/-- C1: for provenance records `A` and `B` whose `http_headers` are present
and contain a parseable `content-length` entry, `A.different_than(B)`
returns exactly the boolean "the two parsed sizes differ" (so `false` when
they are equal). -/
theorem different_than_iff_sizes_differ
    (a b : DataInfo) (hsa hsb : List (String × String)) (va vb : String) (na nb : Int)
    (ha1 : a.http_headers = some hsa)
    (ha2 : dictLookup hsa "content-length" = some va)
    (ha3 : pyInt va = some na)
    (hb1 : b.http_headers = some hsb)
    (hb2 : dictLookup hsb "content-length" = some vb)
    (hb3 : pyInt vb = some nb) :
    a.different_than b = Except.ok (decide (na ≠ nb)) := by
  simp [DataInfo.different_than, DataInfo.source_data_size, bind, Except.bind,
    pure, Except.pure, ha1, ha2, ha3, hb1, hb2, hb3]

/-- Witness for C1: two concrete records of sizes 10 and 12. -/
theorem different_than_iff_sizes_differ_witness :
    DataInfo.different_than ⟨none, none, some [("content-length", "10")]⟩
        ⟨none, none, some [("content-length", "12")]⟩ =
      Except.ok (decide ((10 : Int) ≠ 12)) :=
  different_than_iff_sizes_differ _ _ _ _ "10" "12" 10 12 rfl rfl rfl rfl rfl rfl

/-- C2 counterexample: a record whose `http_headers` are present but hold
no `content-length` entry makes `different_than` raise `TypeError`
(`int(None)`), instead of returning `true` as the claim states. -/
theorem different_than_missing_content_length_raises :
    DataInfo.different_than ⟨none, none, some [("content-type", "zip")]⟩
        ⟨none, none, some [("content-length", "10")]⟩ =
      Except.error PyError.typeError ∧
    DataInfo.different_than ⟨none, none, some [("content-type", "zip")]⟩
        ⟨none, none, some [("content-length", "10")]⟩ ≠ Except.ok true := by
  decide

/-- C2 amended: when a record's `http_headers` are absent the comparison
returns `true` (in either argument position, with the first argument's
size resolving in the symmetric case); but when `http_headers` are present
without a `content-length` entry the call raises `TypeError` instead of
returning. -/
theorem different_than_conservative_amended (a b : DataInfo) :
    (a.http_headers = none → a.different_than b = Except.ok true) ∧
    (∀ hs va na, a.http_headers = some hs →
      dictLookup hs "content-length" = some va → pyInt va = some na →
      b.http_headers = none → a.different_than b = Except.ok true) ∧
    (∀ hs, a.http_headers = some hs → dictLookup hs "content-length" = none →
      a.different_than b = Except.error PyError.typeError) := by
  refine ⟨fun h => ?_, fun hs va na h1 h2 h3 h4 => ?_, fun hs h1 h2 => ?_⟩
  · simp [DataInfo.different_than, DataInfo.source_data_size, bind, Except.bind,
      pure, Except.pure, h]
  · simp [DataInfo.different_than, DataInfo.source_data_size, bind, Except.bind,
      pure, Except.pure, h1, h2, h3, h4]
  · simp [DataInfo.different_than, DataInfo.source_data_size, bind, Except.bind,
      pure, Except.pure, h1, h2]

/-- Witness for the amended C2: the three cases at concrete records. -/
theorem different_than_conservative_amended_witness :
    DataInfo.different_than ⟨none, none, none⟩
        ⟨none, none, some [("content-length", "10")]⟩ = Except.ok true ∧
    DataInfo.different_than ⟨none, none, some [("content-length", "10")]⟩
        ⟨none, none, none⟩ = Except.ok true ∧
    DataInfo.different_than ⟨none, none, some [("accept-ranges", "bytes")]⟩
        ⟨none, none, none⟩ = Except.error PyError.typeError :=
  ⟨(different_than_conservative_amended _ _).1 rfl,
    (different_than_conservative_amended _ _).2.1 [("content-length", "10")] "10" 10
      rfl rfl rfl rfl,
    (different_than_conservative_amended _ _).2.2 [("accept-ranges", "bytes")] rfl rfl⟩

/-- C4 (code bug): a non-empty archive with no member ending in
`COVID19MEXICO.csv` leaves the loop variable bound to the last member
name, so the `file_name is None` check does not fire: the call returns
`dest_dir / "README.txt"` with no extraction performed (the returned
filesystem is unchanged and empty, zero writes) and raises nothing.  Only
a completely empty archive raises `KeyError`. -/
theorem unzip_no_match_returns_unextracted :
    unzip_covid_data_csv "data" ⟨[⟨"README.txt", 3⟩]⟩ [] =
      Except.ok ([], 0, "data/README.txt") ∧
    fsSize [] "data/README.txt" = none ∧
    unzip_covid_data_csv "data" ⟨[]⟩ [] = Except.error PyError.keyError := by
  decide

/-- C5 counterexample: with one file — the current database — on disk,
the database-handling step of `setup_database` leaves an empty
filesystem: the previous database file is simply unlinked, and no renamed
copy of it exists anywhere afterwards. -/
theorem setup_database_deletes_existing_database :
    setup_database_prepare "data/main-database.sqlite"
        [("data/main-database.sqlite", 104857600)] = ([] : FS) := by
  decide

/-- C5 amended: when a database file exists at the configured path,
`setup_database` deletes it (`unlink`): afterwards nothing exists at the
database path, every other path is untouched, and no new file (such as a
renamed copy) has been created. -/
theorem setup_database_prepare_unlinks
    (database : String) (fs : FS) (h : (fsSize fs database).isSome) :
    fsSize (setup_database_prepare database fs) database = none ∧
    (∀ p, p ≠ database →
      fsSize (setup_database_prepare database fs) p = fsSize fs p) ∧
    (∀ p v, fsSize (setup_database_prepare database fs) p = some v →
      fsSize fs p = some v) := by
  have h2 : (dictLookup fs database).isSome = true := h
  refine ⟨?_, fun p hp => ?_, fun p v hpv => ?_⟩
  · simp [setup_database_prepare, fsSize, h2, dictLookup_dictErase]
  · simp [setup_database_prepare, fsSize, h2, dictLookup_dictErase, hp]
  · by_cases hp : p = database
    · subst hp
      simp [setup_database_prepare, fsSize, h2, dictLookup_dictErase] at hpv
    · simpa [setup_database_prepare, fsSize, h2, dictLookup_dictErase, hp] using hpv

/-- Witness for the amended C5. -/
theorem setup_database_prepare_unlinks_witness :
    fsSize (setup_database_prepare "data/main-database.sqlite"
        [("data/main-database.sqlite", 104857600), ("data/210411COVID19MEXICO.csv", 7)])
        "data/main-database.sqlite" = none ∧
    (∀ p, p ≠ "data/main-database.sqlite" →
      fsSize (setup_database_prepare "data/main-database.sqlite"
          [("data/main-database.sqlite", 104857600), ("data/210411COVID19MEXICO.csv", 7)]) p =
        fsSize [("data/main-database.sqlite", 104857600),
          ("data/210411COVID19MEXICO.csv", 7)] p) ∧
    (∀ p v, fsSize (setup_database_prepare "data/main-database.sqlite"
          [("data/main-database.sqlite", 104857600), ("data/210411COVID19MEXICO.csv", 7)]) p =
        some v →
      fsSize [("data/main-database.sqlite", 104857600),
        ("data/210411COVID19MEXICO.csv", 7)] p = some v) :=
  setup_database_prepare_unlinks "data/main-database.sqlite"
    [("data/main-database.sqlite", 104857600), ("data/210411COVID19MEXICO.csv", 7)]
    (by decide)

/-- C8 (code bug): `save_catalog` unregisters `cat_data_view` before
executing the query that selects from it, so every call raises a catalog
error and no table is ever replaced; with the unregister moved after the
execute (the order the method's docstring describes), the call drops any
pre-existing table of that name and recreates it with exactly the CSV
rows. -/
theorem save_catalog_raises_catalog_error :
    (∀ (c : Connection) (name : String) (rows : List CatRow),
      save_catalog c name rows = Except.error PyError.catalogError) ∧
    save_catalog ⟨[("sexo", [["9", "X"]])], []⟩ "sexo" [["1", "HOMBRE"], ["2", "MUJER"]] =
      Except.error PyError.catalogError ∧
    save_catalog_intended ⟨[("sexo", [["9", "X"]])], []⟩ "sexo"
        [["1", "HOMBRE"], ["2", "MUJER"]] =
      Except.ok ⟨[("sexo", [["1", "HOMBRE"], ["2", "MUJER"]])], []⟩ := by
  refine ⟨fun c name rows => ?_, by decide, by decide⟩
  simp [save_catalog, execCreateTableAsView, Connection.unregister,
    Connection.register, execDropTableIfExists, dictLookup_dictErase]

/-- C10: when no file exists at `self.path`, `COVIDData.chunks` yields no
batch and raises nothing — the `self.path.exists()` guard short-circuits
the `pandas.read_csv` call that would otherwise raise
`FileNotFoundError`. -/
theorem chunks_missing_file_empty (parse : String → Option PdTimestamp)
    (size : Option Nat) :
    COVIDData.chunks parse none size = Except.ok [] ∧
    read_csv parse none (effChunkSize size) = Except.error PyError.fileNotFoundError := by
  exact ⟨rfl, rfl⟩

/-- A name taken from `namelist` always has member info. -/
theorem getinfo_of_mem_namelist (z : ZipFile) (m : String) (h : m ∈ z.namelist) :
    ∃ zi, z.getinfo m = some zi ∧ zi.filename = m := by
  have hx : ∃ x ∈ z.members.reverse, (decide (x.filename = m)) = true := by
    simp only [ZipFile.namelist, List.mem_map] at h
    obtain ⟨mem, hmem, hname⟩ := h
    exact ⟨mem, List.mem_reverse.mpr hmem, by simp [hname]⟩
  obtain ⟨zi, hzi⟩ := Option.isSome_iff_exists.mp (List.find?_isSome.mpr hx)
  refine ⟨zi, hzi, ?_⟩
  have := List.find?_some hzi
  simpa using this

/-- After a successful `extractStep` the destination file has the member's
declared size, and when the file was absent exactly one write happened. -/
theorem extractStep_post (dest_dir : String) (z : ZipFile) (n : String) (fs : FS)
    (zi : ZipMember) (hzi : z.getinfo n = some zi) :
    ∃ fs2 w, extractStep dest_dir z n fs = Except.ok (fs2, w) ∧
      fsSize fs2 (dest_dir ++ "/" ++ n) = some zi.file_size ∧
      (fsSize fs (dest_dir ++ "/" ++ n) = none → w = 1) := by
  cases hfs : fsSize fs (dest_dir ++ "/" ++ n) with
  | none =>
    refine ⟨dictInsert fs (dest_dir ++ "/" ++ n) zi.file_size, 1, ?_, ?_, fun _ => rfl⟩
    · simp only [extractStep, hzi, hfs]
    · simp [fsSize, dictLookup_dictInsert]
  | some sz =>
    by_cases hne : zi.file_size = sz
    · refine ⟨fs, 0, ?_, ?_, fun hn => Option.noConfusion hn⟩
      · simp only [extractStep, hzi, hfs]
        simp [hne]
      · rw [hne]
        exact hfs
    · refine ⟨dictInsert fs (dest_dir ++ "/" ++ n) zi.file_size, 1, ?_, ?_, fun _ => rfl⟩
      · simp only [extractStep, hzi, hfs]
        simp [hne]
      · simp [fsSize, dictLookup_dictInsert]

/-- When the destination already holds a file of the member's declared
size, `extractStep` does not touch the filesystem. -/
theorem extractStep_skip (dest_dir : String) (z : ZipFile) (n : String) (fs : FS)
    (zi : ZipMember) (hzi : z.getinfo n = some zi)
    (hfs : fsSize fs (dest_dir ++ "/" ++ n) = some zi.file_size) :
    extractStep dest_dir z n fs = Except.ok (fs, 0) := by
  simp [extractStep, hzi, hfs]

/-- The extraction loop stops at the first matching name and behaves as a
single `extractStep` on it. -/
theorem unzipLoop_first_match (dest_dir : String) (z : ZipFile) (m : String)
    (names : List String) (fs : FS)
    (h : names.find? (fun n => pyEndsWith n "COVID19MEXICO.csv") = some m) :
    unzipLoop dest_dir z names fs =
      match extractStep dest_dir z m fs with
      | Except.error e => Except.error e
      | Except.ok (fs2, w) => Except.ok (fs2, w, some m) := by
  induction names generalizing fs with
  | nil => simp at h
  | cons n rest ih =>
    by_cases hn : pyEndsWith n "COVID19MEXICO.csv"
    · rw [List.find?_cons_of_pos
        (p := fun x => pyEndsWith x "COVID19MEXICO.csv") rest hn] at h
      obtain rfl := Option.some.inj h
      simp only [unzipLoop, hn, if_true]
      cases hes : extractStep dest_dir z n fs with
      | error e => simp [bind, Except.bind, hes]
      | ok r => simp [bind, Except.bind, pure, Except.pure, hes]
    · rw [List.find?_cons_of_neg
        (p := fun x => pyEndsWith x "COVID19MEXICO.csv") rest hn] at h
      cases rest with
      | nil => simp at h
      | cons r rs =>
        rw [← ih fs h]
        have hnf : pyEndsWith n "COVID19MEXICO.csv" = false := by
          simpa using hn
        simp [unzipLoop, hnf]

/-- C3: for an archive whose name list contains a member ending in
`COVID19MEXICO.csv` (with `m` the first such name), the first call of
`unzip_covid_data_csv` leaves the destination file at the member's
declared size and performs the write when the file was absent; the second
call on the resulting filesystem performs zero writes, leaves the
filesystem unchanged, and returns the same destination path. -/
theorem unzip_covid_data_csv_idempotent
    (dest_dir : String) (z : ZipFile) (fs0 : FS) (m : String)
    (hfind : z.namelist.find? (fun n => pyEndsWith n "COVID19MEXICO.csv") = some m) :
    ∃ fs1 w1 zi,
      z.getinfo m = some zi ∧
      unzip_covid_data_csv dest_dir z fs0 = Except.ok (fs1, w1, dest_dir ++ "/" ++ m) ∧
      fsSize fs1 (dest_dir ++ "/" ++ m) = some zi.file_size ∧
      (fsSize fs0 (dest_dir ++ "/" ++ m) = none → w1 = 1) ∧
      unzip_covid_data_csv dest_dir z fs1 = Except.ok (fs1, 0, dest_dir ++ "/" ++ m) := by
  have hmem : m ∈ z.namelist := List.mem_of_find?_eq_some hfind
  obtain ⟨zi, hzi, hname⟩ := getinfo_of_mem_namelist z m hmem
  obtain ⟨fs1, w1, hstep, hpost, hw⟩ := extractStep_post dest_dir z m fs0 zi hzi
  refine ⟨fs1, w1, zi, hzi, ?_, hpost, hw, ?_⟩
  · unfold unzip_covid_data_csv
    rw [unzipLoop_first_match dest_dir z m _ fs0 hfind, hstep]
    simp [bind, Except.bind, pure, Except.pure]
  · unfold unzip_covid_data_csv
    rw [unzipLoop_first_match dest_dir z m _ fs1 hfind,
      extractStep_skip dest_dir z m fs1 zi hzi hpost]
    simp [bind, Except.bind, pure, Except.pure]

/-- Witness for C3: a one-member archive extracted into an empty data
directory, twice. -/
theorem unzip_covid_data_csv_idempotent_witness :
    ∃ fs1 w1 zi,
      ZipFile.getinfo ⟨[⟨"210411COVID19MEXICO.csv", 7⟩]⟩ "210411COVID19MEXICO.csv" =
        some zi ∧
      unzip_covid_data_csv "data" ⟨[⟨"210411COVID19MEXICO.csv", 7⟩]⟩ [] =
        Except.ok (fs1, w1, "data" ++ "/" ++ "210411COVID19MEXICO.csv") ∧
      fsSize fs1 ("data" ++ "/" ++ "210411COVID19MEXICO.csv") = some zi.file_size ∧
      (fsSize [] ("data" ++ "/" ++ "210411COVID19MEXICO.csv") = none → w1 = 1) ∧
      unzip_covid_data_csv "data" ⟨[⟨"210411COVID19MEXICO.csv", 7⟩]⟩ fs1 =
        Except.ok (fs1, 0, "data" ++ "/" ++ "210411COVID19MEXICO.csv") :=
  unzip_covid_data_csv_idempotent "data" ⟨[⟨"210411COVID19MEXICO.csv", 7⟩]⟩ []
    "210411COVID19MEXICO.csv" (by decide)

/-- Row counts of the chunks of a list: full chunks of `s` rows followed by
the remainder. -/
theorem chunkList_map_length {α : Type _} (s : Nat) (hs : 0 < s) :
    (l : List α) →
      (chunkList s l).map List.length =
        List.replicate (l.length / s) s ++
          (if l.length % s = 0 then [] else [l.length % s])
  | [] => by simp [chunkList]
  | x :: xs => by
    have ih := chunkList_map_length s hs ((x :: xs).drop s)
    by_cases hle : s ≤ (x :: xs).length
    · have h1 : (x :: xs).length / s = ((x :: xs).length - s) / s + 1 := by
        conv_lhs => rw [← Nat.sub_add_cancel hle]
        rw [Nat.add_div_right _ hs]
      have h2 : (x :: xs).length % s = ((x :: xs).length - s) % s := by
        conv_lhs => rw [← Nat.sub_add_cancel hle]
        rw [Nat.add_mod_right]
      simp only [chunkList, if_neg (Nat.pos_iff_ne_zero.mp hs), List.map_cons, ih,
        List.length_take, List.length_drop, h1, h2, List.replicate_succ,
        List.cons_append]
      rw [Nat.min_eq_left hle]
    · push_neg at hle
      have htake : (x :: xs).take s = x :: xs := List.take_of_length_le (le_of_lt hle)
      have hdrop : (x :: xs).drop s = [] := List.drop_eq_nil_of_le (le_of_lt hle)
      have hdiv : (x :: xs).length / s = 0 := Nat.div_eq_of_lt hle
      have hmod : (x :: xs).length % s = (x :: xs).length := Nat.mod_eq_of_lt hle
      simp only [chunkList, if_neg (Nat.pos_iff_ne_zero.mp hs), htake, hdrop,
        List.map_cons, List.map_nil, hdiv, hmod, List.replicate_zero,
        List.nil_append]
      rw [if_neg (by simp)]
termination_by l => l.length
decreasing_by
  simp only [List.length_drop, List.length_cons]
  omega

/-- The chunk row counts add up to the original row count. -/
theorem chunkList_sum_length {α : Type _} (s : Nat) (hs : 0 < s) (l : List α) :
    ((chunkList s l).map List.length).sum = l.length := by
  rw [chunkList_map_length s hs l]
  by_cases h : l.length % s = 0
  · simp only [h, if_true, List.append_nil, List.sum_replicate, smul_eq_mul]
    exact Nat.div_mul_cancel (Nat.dvd_of_mod_eq_zero h)
  · rw [List.sum_append]
    simp only [h, if_false, List.sum_cons, List.sum_nil, Nat.add_zero,
      List.sum_replicate, smul_eq_mul]
    exact Nat.div_add_mod' _ _

/-- `COVIDData._fix` does not change the number of rows. -/
theorem fix_length (df : List ParsedRow) : (COVIDData.fix df).length = df.length := by
  simp [COVIDData.fix, fixColumn]

theorem map_length_map_fix (dfs : List (List ParsedRow)) :
    (dfs.map COVIDData.fix).map List.length = dfs.map List.length := by
  induction dfs with
  | nil => rfl
  | cons d ds ih => simp [fix_length, ih]

/-- C6: for a primary CSV with `N` data rows and batch size `S > 0`,
`COVIDData.chunks` yields batches of row counts `S, …, S, N mod S` (the
final term omitted when `S` divides `N`), the counts sum to `N`, and a
call without a size uses 32768 rows per batch. -/
theorem chunks_row_counts (parse : String → Option PdTimestamp)
    (raws : List RawRow) (S : Nat) (hS : 0 < S) :
    (∃ dfs, COVIDData.chunks parse (some raws) (some S) = Except.ok dfs ∧
      dfs.map List.length =
        List.replicate (raws.length / S) S ++
          (if raws.length % S = 0 then [] else [raws.length % S]) ∧
      (dfs.map List.length).sum = raws.length) ∧
    COVIDData.chunks parse (some raws) none =
      COVIDData.chunks parse (some raws) (some 32768) := by
  have heff : effChunkSize (some S) = S := by
    simp [effChunkSize, Nat.pos_iff_ne_zero.mp hS]
  constructor
  · refine ⟨(chunkList S (raws.map (parseRow parse))).map COVIDData.fix, ?_, ?_, ?_⟩
    · simp [COVIDData.chunks, read_csv, heff, bind, Except.bind, pure, Except.pure]
    · rw [map_length_map_fix, chunkList_map_length S hS, List.length_map]
    · rw [map_length_map_fix, chunkList_sum_length S hS, List.length_map]
  · have heq : effChunkSize none = effChunkSize (some 32768) := by decide
    simp only [COVIDData.chunks, heq]

/-- Witness for C6: three data rows in batches of two give row counts
`[2, 1]`. -/
theorem chunks_row_counts_witness :
    (∃ dfs, COVIDData.chunks (fun _ => none) (some [[], [], []]) (some 2) =
        Except.ok dfs ∧
      dfs.map List.length =
        List.replicate (([[], [], []] : List RawRow).length / 2) 2 ++
          (if ([[], [], []] : List RawRow).length % 2 = 0 then []
           else [([[], [], []] : List RawRow).length % 2]) ∧
      (dfs.map List.length).sum = ([[], [], []] : List RawRow).length) ∧
    COVIDData.chunks (fun _ => none) (some [[], [], []]) none =
      COVIDData.chunks (fun _ => none) (some [[], [], []]) (some 32768) :=
  chunks_row_counts (fun _ => none) [[], [], []] 2 (by decide)

/-- Chunking commutes with a row-wise map. -/
theorem chunkList_map {α β : Type _} (s : Nat) (f : α → β) :
    (l : List α) → chunkList s (l.map f) = (chunkList s l).map (List.map f)
  | [] => by simp [chunkList]
  | x :: xs => by
    by_cases hs : s = 0
    · simp [chunkList, hs]
    · have ih := chunkList_map s f ((x :: xs).drop s)
      simp only [List.map_cons, chunkList, hs, if_false]
      rw [← List.map_cons f x xs, ← List.map_take, ← List.map_drop, ih]
termination_by l => l.length
decreasing_by
  simp only [List.length_drop, List.length_cons]
  omega

/-- One cell of a date column after `read_csv` parsing and `_fix`: the
sentinel becomes a missing value, a parsed timestamp keeps only its
calendar date, anything else stays text. -/
theorem fix_parse_cell (parse : String → Option PdTimestamp) (col s : String) :
    fixCell "FECHA_DEF" (fixCell "FECHA_SINTOMAS" (fixCell "FECHA_INGRESO"
        (fixCell "FECHA_ACTUALIZACION" (col, parseCell parse col s)))) =
      (col,
        if col ∈ dateColumns then
          if col = "FECHA_DEF" ∧ s = "9999-99-99" then Cell.na
          else
            match parse s with
            | some t => Cell.date t.date
            | none => Cell.text s
        else Cell.text s) := by
  by_cases h : col ∈ dateColumns
  · simp only [dateColumns, List.mem_cons, List.not_mem_nil, or_false] at h
    rcases h with h | h | h | h <;> subst h
    · cases hp : parse s <;>
        simp [parseCell, dateColumns, fixCell, dtDate, hp]
    · cases hp : parse s <;>
        simp [parseCell, dateColumns, fixCell, dtDate, hp]
    · cases hp : parse s <;>
        simp [parseCell, dateColumns, fixCell, dtDate, hp]
    · by_cases hsent : s = "9999-99-99"
      · simp [parseCell, dateColumns, fixCell, dtDate, hsent]
      · cases hp : parse s <;>
          simp [parseCell, dateColumns, fixCell, dtDate, hp, hsent]
  · have h1 : ¬col = "FECHA_ACTUALIZACION" := fun he => h (by simp [dateColumns, he])
    have h2 : ¬col = "FECHA_INGRESO" := fun he => h (by simp [dateColumns, he])
    have h3 : ¬col = "FECHA_SINTOMAS" := fun he => h (by simp [dateColumns, he])
    have h4 : ¬col = "FECHA_DEF" := fun he => h (by simp [dateColumns, he])
    simp [parseCell, fixCell, h, h1, h2, h3, h4]

/-- C7: every batch that `COVIDData.chunks` yields carries, in each of the
four `parse_dates` columns, the parsed timestamp truncated to its calendar
date (the time of day is discarded); a `FECHA_DEF` cell whose text is
exactly `9999-99-99` becomes a missing value instead of being parsed; all
other cells stay text. -/
theorem chunks_date_columns_normalized (parse : String → Option PdTimestamp)
    (raws : List RawRow) (size : Option Nat) :
    COVIDData.chunks parse (some raws) size =
      Except.ok ((chunkList (effChunkSize size) raws).map (fun ch =>
        ch.map (fun row => row.map (fun p =>
          (p.1,
            if p.1 ∈ dateColumns then
              if p.1 = "FECHA_DEF" ∧ p.2 = "9999-99-99" then Cell.na
              else
                match parse p.2 with
                | some t => Cell.date t.date
                | none => Cell.text p.2
            else Cell.text p.2))))) := by
  have hchunks : COVIDData.chunks parse (some raws) size =
      Except.ok ((chunkList (effChunkSize size) (raws.map (parseRow parse))).map
        COVIDData.fix) := by
    simp [COVIDData.chunks, read_csv, bind, Except.bind, pure, Except.pure]
  rw [hchunks, chunkList_map]
  congr 1
  rw [List.map_map]
  apply List.map_congr_left
  intro ch _
  simp only [Function.comp_apply, COVIDData.fix, fixColumn, List.map_map, parseRow]
  apply List.map_congr_left
  intro row _
  simp only [Function.comp_apply, parseRow, List.map_map]
  apply List.map_congr_left
  intro p _
  exact fix_parse_cell parse p.1 p.2

/-- Folding the normalization inserts over a header list with lowercase,
pairwise-distinct names appends them unchanged. -/
theorem foldl_dictInsert_append (hs : List (String × String)) :
    ∀ acc : List (String × String),
      (∀ p ∈ hs, pyLower p.1 = p.1) →
      (hs.map Prod.fst).Nodup →
      (∀ p ∈ acc, ∀ q ∈ hs, p.1 ≠ q.1) →
      hs.foldl (fun acc p => dictInsert acc (pyLower p.1) p.2) acc = acc ++ hs := by
  induction hs with
  | nil =>
    intro acc _ _ _
    simp
  | cons q rest ih =>
    intro acc hlow hnd hdisj
    rw [List.map_cons] at hnd
    have hnd2 := List.nodup_cons.mp hnd
    rw [List.foldl_cons, hlow q (List.mem_cons_self q rest),
      dictInsert_append_of_not_mem acc q.1 q.2
        (fun p hp => hdisj p hp q (List.mem_cons_self q rest)),
      ih (acc ++ [q]) (fun p hp => hlow p (List.mem_cons_of_mem q hp)) hnd2.2 ?_]
    · simp
    · intro p hp r hr
      rcases List.mem_append.mp hp with hpa | hpq
      · exact hdisj p hpa r (List.mem_cons_of_mem q hr)
      · have hpq2 : p = q := by simpa using hpq
        subst hpq2
        intro heq
        exact hnd2.1 (by rw [heq]; exact List.mem_map_of_mem Prod.fst hr)

/-- Normalizing a header dict whose names are already lowercase (and
pairwise distinct, as dict keys are) changes nothing. -/
theorem normalize_http_headers_id (hs : List (String × String))
    (hlow : ∀ p ∈ hs, pyLower p.1 = p.1)
    (hnd : (hs.map Prod.fst).Nodup) :
    normalize_http_headers hs = hs := by
  have h := foldl_dictInsert_append hs [] hlow hnd (by intro p hp; cases hp)
  simpa [normalize_http_headers] using h

/-- C9 amended: a record with lowercase, distinct header names and a
content-length that parses as an integer round-trips through
`save`/`from_file` to a record the change detector considers unchanged. -/
theorem roundtrip_different_than_false (R : DataInfo) (hs : List (String × String))
    (hh : R.http_headers = some hs)
    (hlow : ∀ p ∈ hs, pyLower p.1 = p.1)
    (hnd : (hs.map Prod.fst).Nodup)
    (v : String) (n : Int)
    (hcl : dictLookup hs "content-length" = some v)
    (hn : pyInt v = some n) :
    (DataInfo.from_file (DataInfo.save R)).different_than R = Except.ok false := by
  have hnorm := normalize_http_headers_id hs hlow hnd
  have hh2 : (DataInfo.from_file (DataInfo.save R)).http_headers = some hs := by
    simp [DataInfo.from_file, DataInfo.save, hh, hnorm]
  simp [DataInfo.different_than, DataInfo.source_data_size, hh2, hh, hcl, hn,
    bind, Except.bind, pure, Except.pure]

/-- C9 counterexample: with a lowercase `content-length` entry whose value
does not parse as an integer, the reloaded record's `different_than`
raises `ValueError` instead of returning `false`. -/
theorem roundtrip_unparseable_content_length :
    (DataInfo.from_file (DataInfo.save
        ⟨none, none, some [("content-length", "x")]⟩)).different_than
        ⟨none, none, some [("content-length", "x")]⟩ =
      Except.error PyError.valueError ∧
    (DataInfo.from_file (DataInfo.save
        ⟨none, none, some [("content-length", "x")]⟩)).different_than
        ⟨none, none, some [("content-length", "x")]⟩ ≠ Except.ok false := by
  decide

/-- Witness for the amended C9. -/
theorem roundtrip_different_than_false_witness :
    (DataInfo.from_file (DataInfo.save
        ⟨some "110421COVID19MEXICO.csv", some "2021-04-11",
          some [("content-length", "7"), ("accept-ranges", "bytes")]⟩)).different_than
        ⟨some "110421COVID19MEXICO.csv", some "2021-04-11",
          some [("content-length", "7"), ("accept-ranges", "bytes")]⟩ =
      Except.ok false :=
  roundtrip_different_than_false _ [("content-length", "7"), ("accept-ranges", "bytes")]
    rfl (by decide) (by decide) "7" 7 rfl rfl
